import Mathlib

/-!
Verification of the blaze typed expression-graph prototype.

Shallow embedding of `src/expression.py` (a Python 2 module) and
`src/blaze/compute/pmap.py`.

Modelling conventions:
* Python objects that flow through the graph-builder API are `PyObj`:
  a raw host value (`RawVal`), a `Terminal` instance, or a `Value` instance.
* Python exceptions become `Except Err`:
  - the `KeyError` raised by `module[ty]` / `docs[ty]` inside `Node._proxy`
    is the "unknown category" failure (`Err.unknownCategory`);
  - the `IndexError` raised by `args[0]` / `args[1]` inside `kernel`
    is the "insufficient operands" failure (`Err.insufficientOperands`);
  - the `AttributeError` raised when `unify` reads `e1.ty` off an object
    with no `ty` attribute is `Err.attributeError "ty"`.
* `random.choice(['numpy','blir','numexpr'])` in `oracle` is modelled by an
  explicit seed: `oracle seed` picks `backends[seed % 3]`.
* Floats carry an opaque tag (no float arithmetic occurs in the module).
-/

set_option linter.unusedVariables false

/-- Raw host values that can be handed to the graph builder: numbers,
Python lists, numpy arrays, strings and arbitrary other objects. -/
inductive RawVal where
  | int (n : Int)
  | float (tag : Nat)
  | list (xs : List RawVal)
  | ndarray (xs : List Int)
  | str (s : String)
  | obj (id : Nat)

/-- Failure modes of the module, named after the spec's error taxonomy;
each constructor models a concrete Python exception site (see file header). -/
inductive Err where
  | unknownCategory (ty : String)
  | insufficientOperands
  | attributeError (attr : String)

/-- The `module` dictionary of expression.py: semantic category name to the
names of its registered operations (the operation bodies are thin lambdas
over `kernel` / `binop` and are not needed by any claim). -/
def module : List (String × List String) :=
  [("array", ["__add__", "__radd__", "dot"]),
   ("scalar", ["__add__", "__mul__"])]

/-- The `docs` dictionary of expression.py: category name to docstring. -/
def docs : List (String × String) :=
  [("array", "A vector value"),
   ("scalar", "A scalar value")]

/-- Python dict lookup on an association list; a missing key is the
`KeyError` raised by `module[ty]` / `docs[ty]`, i.e. an unknown category. -/
def lookupKey {α : Type} (xs : List (String × α)) (k : String) : Except Err α :=
  match xs.find? (fun p => p.1 == k) with
  | some p => Except.ok p.2
  | none => Except.error (Err.unknownCategory k)

/-- The dynamically synthesized proxy type built by `Node._proxy`:
the namespace holds the category's operation names, the `ty` attribute and
the docstring. -/
structure ProxyType where
  ops : List String
  ty : String
  doc : String

/-- `Node._proxy(ty)`: iterates `module[ty]` into the namespace, then sets
`ns[ty]` and `ns[__doc__] = docs[ty]`; a category missing from either
dictionary raises (KeyError, modelled as `unknownCategory`). -/
def Node._proxy (ty : String) : Except Err ProxyType := do
  let ops ← lookupKey module ty
  let doc ← lookupKey docs ty
  Except.ok ⟨ops, ty, doc⟩

/-- A Terminal instance: `ty` is its semantic category, `src` the concrete
wrapped host value. -/
structure Terminal where
  ty : String
  src : RawVal

/-- `Terminal(ty, src)`: `__new__` first builds the proxy type via
`cls._proxy(ty)` (which fails on an unregistered category), then `__init__`
stores `ty` and `src`. -/
def Terminal.new (ty : String) (src : RawVal) : Except Err Terminal := do
  let _ ← Node._proxy ty
  Except.ok ⟨ty, src⟩

/-- Graph nodes usable as operands of Op/Kernel: a Terminal leaf, an `Op`
(fields `op`, `left`, `right`) or a `Kernel` (fields `kind`, `name`,
`args`). `Value` wrappers never appear here: `unit` unwraps them. -/
inductive GNode where
  | term (t : Terminal)
  | op (op : String) (left : GNode) (right : GNode)
  | kernel (kind : Nat) (name : String) (args : List GNode)

/-- A Value instance: `ty` is the result category, `_ast` the owned
Op/Kernel graph. -/
structure Value where
  ty : String
  _ast : GNode

/-- `Value(ty, ast)`: `__new__` builds the proxy type via `cls._proxy(ty)`
(failing on an unregistered category), then `__init__` stores the fields. -/
def Value.new (ty : String) (ast : GNode) : Except Err Value := do
  let _ ← Node._proxy ty
  Except.ok ⟨ty, ast⟩

/-- A Python object as accepted by `unit` / `unify` / `binop` / `kernel`:
a raw host value, a Terminal instance, or a Value instance. -/
inductive PyObj where
  | raw (v : RawVal)
  | term (t : Terminal)
  | value (v : Value)

/-- The attribute access `e.ty`: Terminal and Value instances carry a `ty`
attribute; raw host values (ints, floats, lists, ndarrays, strings, other
objects) do not, so the access raises AttributeError. -/
def getTy : PyObj → Except Err String
  | PyObj.term t => Except.ok t.ty
  | PyObj.value v => Except.ok v.ty
  | PyObj.raw _ => Except.error (Err.attributeError "ty")

/-- `unify(op, e1, e2)`: `return e1.ty` — a left-biased pass-through that
ignores both the operator and the second operand. -/
def unify (op : String) (e1 e2 : PyObj) : Except Err String :=
  getTy e1

/-- `unit(val)` (the spec's `lift`): Value unwraps to its `_ast`; Terminal
passes through; `(int, long, float)` becomes a scalar Terminal;
`(list, np.ndarray)` becomes an array Terminal; the `isinstance(val,
object)` catch-all (true of every Python object) sends everything else to
an array Terminal, so the final `raise NotImplementedError` is dead code. -/
def unit (val : PyObj) : Except Err GNode :=
  match val with
  | PyObj.value v => Except.ok v._ast
  | PyObj.term t => Except.ok (GNode.term t)
  | PyObj.raw r =>
    match r with
    | RawVal.int n => (Terminal.new "scalar" (RawVal.int n)).map GNode.term
    | RawVal.float x => (Terminal.new "scalar" (RawVal.float x)).map GNode.term
    | RawVal.list xs => (Terminal.new "array" (RawVal.list xs)).map GNode.term
    | RawVal.ndarray xs => (Terminal.new "array" (RawVal.ndarray xs)).map GNode.term
    | other => (Terminal.new "array" other).map GNode.term

/-- `binop(op, a, b)`: computes `retty = unify(op, a, b)` on the RAW
arguments first, then lifts `a` and `b` with `unit`, builds the Op and
wraps it in `Value(retty, logic)` — mirroring the source's line order. -/
def binop (op : String) (a b : PyObj) : Except Err Value := do
  let retty ← unify op a b
  let a2 ← unit a
  let b2 ← unit b
  Value.new retty (GNode.op op a2 b2)

/-- The indexing `args[i]` on the kernel operand list; an out-of-range
index raises (IndexError, modelled as `insufficientOperands`). -/
def getItem (xs : List PyObj) (i : Nat) : Except Err PyObj :=
  match xs.get? i with
  | some x => Except.ok x
  | none => Except.error Err.insufficientOperands

/-- `kernel(kind, name, args)`: `map(unit, args)` runs eagerly (Python 2),
then `unify(name, args[0], args[1])` indexes the RAW argument list (these
index accesses fail on fewer than two operands), then the Kernel node is
built and wrapped in `Value(retty, logic)`. -/
def kernel (kind : Nat) (name : String) (args : List PyObj) : Except Err Value := do
  let operands ← args.mapM unit
  let a0 ← getItem args 0
  let a1 ← getItem args 1
  let retty ← unify name a0 a1
  Value.new retty (GNode.kernel kind name operands)

def MAP : Nat := 0
def ZIPWITH : Nat := 1
def SCAN : Nat := 2
def REDUCE : Nat := 3
def OUTER : Nat := 4

/-- The three registered backend identifiers of `oracle` / `Node.eval`. -/
def backends : List String := ["numpy", "blir", "numexpr"]

/-- `oracle(expr)`: `random.choice(['numpy', 'blir', 'numexpr'])`; the
random draw is modelled by an explicit seed. -/
def oracle (seed : Nat) : String :=
  backends.getD (seed % 3) "numpy"

/-- The observable outcome of `Node.eval`: which external backend function
(`compile.eval_numpy` / `eval_blir` / `eval_numexpr`) is invoked, and with
which graph. The backends themselves are external collaborators. -/
structure Dispatch where
  backend : String
  expr : GNode

/-- `Node.eval(self, backend=None)`: the if/elif chain dispatches a
recognized backend name to its backend function with `self._ast`; EVERY
other argument (None or any unrecognized string) falls to the `else`
branch `return self.eval(oracle(expr))`, whose recursive call hits one of
the three recognized branches (oracle only returns registered names), so
it resolves to a dispatch to the oracle-chosen backend. -/
def Node.eval (seed : Nat) (ast : GNode) (backend : Option String) : Dispatch :=
  if backend = some "numpy" then ⟨"numpy", ast⟩
  else if backend = some "blir" then ⟨"blir", ast⟩
  else if backend = some "numexpr" then ⟨"numexpr", ast⟩
  else ⟨oracle seed, ast⟩

/-- `Terminal.eval(self)`: `return self` — the Terminal node itself, with
no backend machinery involved. -/
def Terminal.eval (t : Terminal) : Terminal := t

/-- Keyword parameters (besides `self`) of `Node.eval`, read off
`def eval(self, backend=None)`; `Value` inherits this method. -/
def Node.evalParams : List String := ["backend"]

/-- Keyword parameters (besides `self`) of `Terminal.eval`, read off
`def eval(self)` — the override accepts no backend argument. -/
def Terminal.evalParams : List String := []

/-- Outcome of a Python call that may reject its keyword arguments. -/
inductive KwCall (α : Type) where
  | ok (a : α)
  | typeError

/-- Python's calling convention for keyword arguments: a keyword that names
no parameter of the callee raises TypeError before the body runs. -/
def callWithKw {α : Type} (params : List String) (kwargs : List String)
    (body : Unit → α) : KwCall α :=
  if kwargs.all (fun k => params.contains k) then KwCall.ok (body ())
  else KwCall.typeError

/-- State of `src/blaze/compute/pmap.py`: the module-level one-cell list
`default_map`. `F` abstracts over the Python function objects stored in
the cell. -/
structure PmapState (F : Type) where
  default_map : List F

/-- The module-load initialization `default_map = [map]`; `builtinMap`
stands for Python's builtin `map`. -/
def initPmap {F : Type} (builtinMap : F) : PmapState F := ⟨[builtinMap]⟩

/-- `set_default_pmap(func)`: `default_map[0] = func`. -/
def set_default_pmap {F : Type} (func : F) (s : PmapState F) : PmapState F :=
  ⟨s.default_map.set 0 func⟩

/-- `get_default_pmap()`: `return default_map[0]` (an empty cell would be
an IndexError, hence `Option`; the cell is never empty in reachable
states). -/
def get_default_pmap {F : Type} (s : PmapState F) : Option F :=
  s.default_map.get? 0

/-- Python's builtin sequential `map`, at one concrete instance. -/
def pyMap : (Nat → Nat) → List Nat → List Nat :=
  fun f xs => List.map f xs

/-- States of the pmap module reachable from module load (`default_map =
[m]`) by any sequence of `set_default_pmap` calls. -/
inductive PmapReachable {F : Type} (m : F) : PmapState F → Prop where
  | init : PmapReachable m (initPmap m)
  | step (f : F) (s : PmapState F) :
      PmapReachable m s → PmapReachable m (set_default_pmap f s)

/-! Helper lemmas shared by the claim theorems. -/

/-- `unit` succeeds on every Python object: the dead `raise
NotImplementedError` branch is unreachable because `isinstance(val,
object)` holds of every Python value. -/
theorem unit_total (v : PyObj) : ∃ g, unit v = Except.ok g := by
  cases v with
  | raw r => cases r <;> exact ⟨_, rfl⟩
  | term t => exact ⟨_, rfl⟩
  | value w => exact ⟨_, rfl⟩

/-- Lifting a whole operand list with `map(unit, args)` always succeeds. -/
theorem mapM_unit_total (xs : List PyObj) : ∃ ys, xs.mapM unit = Except.ok ys := by
  induction xs with
  | nil => exact ⟨[], rfl⟩
  | cons a as ih =>
    obtain ⟨g, hg⟩ := unit_total a
    obtain ⟨ys, hys⟩ := ih
    exact ⟨g :: ys, by rw [List.mapM_cons, hg, hys]; rfl⟩

/-- The oracle only ever returns one of the three registered backend
names. -/
theorem oracle_mem_backends (seed : Nat) : oracle seed ∈ backends := by
  have h : seed % 3 = 0 ∨ seed % 3 = 1 ∨ seed % 3 = 2 := by omega
  rcases h with h | h | h <;> simp [oracle, backends, h]

/-- In every state of the pmap module reachable from module load, the
`default_map` cell still holds exactly one entry. -/
theorem pmap_reachable_length {F : Type} (m : F) (s : PmapState F)
    (h : PmapReachable m s) : s.default_map.length = 1 := by
  induction h with
  | init => rfl
  | step f s2 h2 ih => simpa [set_default_pmap] using ih

/-! Claim theorems. -/

/-- C4: lift (`unit`) is idempotent and unwrapping — a Terminal passes
through unchanged, and a Value yields exactly the Op/Kernel node held in
its `_ast` field (the wrapper is discarded, not re-wrapped). -/
theorem C4_lift_idempotent_unwrapping :
    (∀ t : Terminal, unit (PyObj.term t) = Except.ok (GNode.term t))
    ∧ (∀ v : Value, unit (PyObj.value v) = Except.ok v._ast) :=
  ⟨fun t => rfl, fun v => rfl⟩

/-- C5: for raw host values, lift (`unit`) sends integers and floats to a
Terminal of category "scalar", lists and ndarrays to a Terminal of
category "array", any other object (strings, arbitrary objects) to the
"array" fallback, and never raises on any input. -/
theorem C5_lift_classifies_and_never_raises :
    (∀ n, unit (PyObj.raw (RawVal.int n))
      = Except.ok (GNode.term ⟨"scalar", RawVal.int n⟩))
    ∧ (∀ x, unit (PyObj.raw (RawVal.float x))
      = Except.ok (GNode.term ⟨"scalar", RawVal.float x⟩))
    ∧ (∀ xs, unit (PyObj.raw (RawVal.list xs))
      = Except.ok (GNode.term ⟨"array", RawVal.list xs⟩))
    ∧ (∀ xs, unit (PyObj.raw (RawVal.ndarray xs))
      = Except.ok (GNode.term ⟨"array", RawVal.ndarray xs⟩))
    ∧ (∀ s, unit (PyObj.raw (RawVal.str s))
      = Except.ok (GNode.term ⟨"array", RawVal.str s⟩))
    ∧ (∀ i, unit (PyObj.raw (RawVal.obj i))
      = Except.ok (GNode.term ⟨"array", RawVal.obj i⟩))
    ∧ (∀ v : PyObj, ∃ g, unit v = Except.ok g) := by
  refine ⟨fun n => rfl, fun x => rfl, fun xs => rfl, fun xs => rfl,
    fun s => rfl, fun i => rfl, unit_total⟩

/-- C6: `unify` returns the category of its first operand, for every
operator and every second operand — a left-biased pass-through that is
not symmetric (witnessed by a scalar/array pair in both orders). -/
theorem C6_unify_left_biased (op : String) (e1 e2 : PyObj) (c : String)
    (h : getTy e1 = Except.ok c) :
    unify op e1 e2 = Except.ok c
    ∧ unify "+" (PyObj.term ⟨"scalar", RawVal.int 0⟩)
        (PyObj.term ⟨"array", RawVal.list []⟩) = Except.ok "scalar"
    ∧ unify "+" (PyObj.term ⟨"array", RawVal.list []⟩)
        (PyObj.term ⟨"scalar", RawVal.int 0⟩) = Except.ok "array" :=
  ⟨h, rfl, rfl⟩

/-- C6 witness: unify at a concrete operator and concrete operands of
different categories returns the first operand's category. -/
theorem C6_witness :
    unify "*" (PyObj.term ⟨"scalar", RawVal.int 7⟩) (PyObj.raw (RawVal.int 1))
      = Except.ok "scalar"
    ∧ unify "+" (PyObj.term ⟨"scalar", RawVal.int 0⟩)
        (PyObj.term ⟨"array", RawVal.list []⟩) = Except.ok "scalar"
    ∧ unify "+" (PyObj.term ⟨"array", RawVal.list []⟩)
        (PyObj.term ⟨"scalar", RawVal.int 0⟩) = Except.ok "array" :=
  C6_unify_left_biased "*" (PyObj.term ⟨"scalar", RawVal.int 7⟩)
    (PyObj.raw (RawVal.int 1)) "scalar" rfl

/-- C7 counterexample: `Terminal.eval` on the Terminal wrapping the number
5 returns the Terminal object itself, which is NOT the wrapped source
object 5 — refuting "evaluating t returns the wrapped source object". -/
theorem C7_counterexample :
    PyObj.term (Terminal.eval ⟨"scalar", RawVal.int 5⟩)
      ≠ PyObj.raw (RawVal.int 5) := by
  intro h
  injection h

/-- C7 amended: `Terminal.eval(self)` is `return self` — evaluating a
Terminal returns the Terminal node itself unchanged (identity on the
node, for numeric and array-like terminals alike), and no backend is
resolved or invoked (the override never reaches `Node.eval`'s dispatch). -/
theorem C7_terminal_eval_identity : ∀ t : Terminal, Terminal.eval t = t :=
  fun t => rfl

/-- C1 counterexample: `eval` with the unregistered backend name
"unknown" does NOT fail — the if/elif chain's `else` branch treats it
exactly like no backend at all and dispatches to the oracle-chosen
registered backend ("numpy" at seed 0), refuting "fails with
UnknownBackend" (no such failure exists anywhere in the code). -/
theorem C1_counterexample :
    "unknown" ∉ backends
    ∧ Node.eval 0 (Value.mk "array" (GNode.term ⟨"array", RawVal.list []⟩))._ast
        (some "unknown")
      = ⟨"numpy", GNode.term ⟨"array", RawVal.list []⟩⟩ := by
  refine ⟨by decide, ?_⟩
  rfl

/-- C1 amended: for every Value node, seed, and backend name s that is
not one of the registered identifiers, `eval(backend=s)` does not fail:
it behaves exactly like `eval()` with no backend, dispatching the
node's existing graph (unchanged — no Terminal or Value is constructed)
to the oracle-selected registered backend. -/
theorem C1_unknown_backend_falls_back (seed : Nat) (v : Value) (s : String)
    (h : s ∉ backends) :
    Node.eval seed v._ast (some s) = ⟨oracle seed, v._ast⟩
    ∧ Node.eval seed v._ast (some s) = Node.eval seed v._ast none
    ∧ oracle seed ∈ backends := by
  simp only [backends, List.mem_cons, List.not_mem_nil, or_false, not_or] at h
  obtain ⟨h1, h2, h3⟩ := h
  refine ⟨?_, ?_, oracle_mem_backends seed⟩
  · simp [Node.eval, h1, h2, h3]
  · simp [Node.eval, h1, h2, h3]

/-- C1 witness: the amended statement at seed 2, a concrete Value and the
unregistered backend name "foo". -/
theorem C1_witness :
    Node.eval 2 (Value.mk "array" (GNode.term ⟨"array", RawVal.list []⟩))._ast
      (some "foo")
      = ⟨oracle 2, (Value.mk "array" (GNode.term ⟨"array", RawVal.list []⟩))._ast⟩
    ∧ oracle 2 ∈ backends :=
  ⟨(C1_unknown_backend_falls_back 2
      (Value.mk "array" (GNode.term ⟨"array", RawVal.list []⟩)) "foo" (by decide)).1,
   (C1_unknown_backend_falls_back 2
      (Value.mk "array" (GNode.term ⟨"array", RawVal.list []⟩)) "foo" (by decide)).2.2⟩

/-- C2: for every kernel kind among the five enumerated kinds, every
name, and every operand list with fewer than two elements, `kernel`
fails (the `args[1]` — or `args[0]` — index access raises, modelled as
`insufficientOperands`) and no Value is returned. -/
theorem C2_insufficient_operands (kind : Nat) (name : String)
    (args : List PyObj)
    (hk : kind ∈ [MAP, ZIPWITH, SCAN, REDUCE, OUTER])
    (hlen : args.length < 2) :
    kernel kind name args = Except.error Err.insufficientOperands := by
  match args, hlen with
  | [], _ => rfl
  | [a], _ =>
    obtain ⟨g, hg⟩ := unit_total a
    simp only [kernel, List.mapM, List.mapM.loop, hg, getItem]
    rfl

/-- C2 witness: a single-operand ZIPWITH kernel call fails with the
insufficient-operands error. -/
theorem C2_witness :
    kernel ZIPWITH "add" [PyObj.raw (RawVal.int 1)]
      = Except.error Err.insufficientOperands :=
  C2_insufficient_operands ZIPWITH "add" [PyObj.raw (RawVal.int 1)]
    (by decide) (by decide)

/-- Bind on a successful Except computation runs the continuation. -/
theorem except_bind_ok {α β : Type} (a : α) (f : α → Except Err β) :
    (Except.ok a >>= f) = f a := rfl

/-- Bind on a failed Except computation propagates the error. -/
theorem except_bind_error {α β : Type} (e : Err) (f : α → Except Err β) :
    ((Except.error e : Except Err α) >>= f) = Except.error e := rfl

/-- C3 counterexample: on the raw host numbers 2 and 3 — inputs accepted
by lift (`unit`) — `binop` does NOT return a Value: it evaluates
`unify(op, a, b)` on the raw, unlifted arguments first, and the `a.ty`
attribute access fails on a raw number (AttributeError), refuting
"first lifts both inputs, computes the result category by applying
unify to the two lifted nodes, and returns a Value". -/
theorem C3_counterexample :
    binop "+" (PyObj.raw (RawVal.int 2)) (PyObj.raw (RawVal.int 3))
      = Except.error (Err.attributeError "ty") := rfl

/-- C3 amended: `binop` applies `unify` to the RAW inputs before lifting
(so the category is the first raw input's own `ty`, and a raw host first
input makes it fail with AttributeError); when the first input already
carries a category (Terminal or Value, `getTy a = ok c`) and that
category is registered, `binop` lifts both inputs and returns a Value of
that category wrapping an Op over the lifted operands. Likewise `kernel`
lifts every operand but applies `unify` to the first two RAW operands. -/
theorem C3_unify_on_raw_inputs (op name : String) (kind : Nat) (a b : PyObj)
    (rest : List PyObj) (c : String) (ga gb : GNode) (ops : List GNode)
    (p : ProxyType)
    (h1 : getTy a = Except.ok c)
    (h2 : Node._proxy c = Except.ok p)
    (h3 : unit a = Except.ok ga)
    (h4 : unit b = Except.ok gb)
    (h5 : (a :: b :: rest).mapM unit = Except.ok ops) :
    binop op a b = Except.ok ⟨c, GNode.op op ga gb⟩
    ∧ kernel kind name (a :: b :: rest)
      = Except.ok ⟨c, GNode.kernel kind name ops⟩ := by
  have h5l : List.mapM.loop unit (a :: b :: rest) [] = Except.ok ops := h5
  constructor
  · simp [binop, unify, h1, h3, h4, except_bind_ok, Value.new, h2]
  · simp [kernel, h5l, getItem, unify, h1, except_bind_ok, Value.new, h2]

/-- C3 witness: the amended statement at a concrete scalar Terminal first
operand and a raw-number second operand, for both binop and a ZIPWITH
kernel. -/
theorem C3_witness :
    binop "+" (PyObj.term ⟨"scalar", RawVal.int 2⟩) (PyObj.raw (RawVal.int 3))
      = Except.ok ⟨"scalar", GNode.op "+" (GNode.term ⟨"scalar", RawVal.int 2⟩)
          (GNode.term ⟨"scalar", RawVal.int 3⟩)⟩
    ∧ kernel ZIPWITH "add"
        [PyObj.term ⟨"scalar", RawVal.int 2⟩, PyObj.raw (RawVal.int 3)]
      = Except.ok ⟨"scalar", GNode.kernel ZIPWITH "add"
          [GNode.term ⟨"scalar", RawVal.int 2⟩,
           GNode.term ⟨"scalar", RawVal.int 3⟩]⟩ :=
  C3_unify_on_raw_inputs "+" "add" ZIPWITH
    (PyObj.term ⟨"scalar", RawVal.int 2⟩) (PyObj.raw (RawVal.int 3)) []
    "scalar" (GNode.term ⟨"scalar", RawVal.int 2⟩)
    (GNode.term ⟨"scalar", RawVal.int 3⟩)
    [GNode.term ⟨"scalar", RawVal.int 2⟩, GNode.term ⟨"scalar", RawVal.int 3⟩]
    ⟨["__add__", "__mul__"], "scalar", "A scalar value"⟩
    rfl rfl rfl rfl rfl

/-- C8: for every category name not in the semantic registry, building
the proxy view (`Node._proxy`) fails with the unknown-category error
(the `module[ty]` KeyError), and hence constructing any Terminal or
Value with that category fails the same way. -/
theorem C8_unknown_category (c : String)
    (h : c ∉ ["array", "scalar"]) :
    Node._proxy c = Except.error (Err.unknownCategory c)
    ∧ (∀ src, Terminal.new c src = Except.error (Err.unknownCategory c))
    ∧ (∀ ast, Value.new c ast = Except.error (Err.unknownCategory c)) := by
  simp only [List.mem_cons, List.not_mem_nil, or_false, not_or] at h
  have hb1 : ("array" == c) = false := beq_eq_false_iff_ne.mpr (Ne.symm h.1)
  have hb2 : ("scalar" == c) = false := beq_eq_false_iff_ne.mpr (Ne.symm h.2)
  have e1 : lookupKey module c = Except.error (Err.unknownCategory c) := by
    simp [lookupKey, module, List.find?, hb1, hb2]
  exact ⟨by simp [Node._proxy, e1, except_bind_error],
    fun src => by simp [Terminal.new, Node._proxy, e1, except_bind_error],
    fun ast => by simp [Value.new, Node._proxy, e1, except_bind_error]⟩

/-- C8 witness: the unregistered category "matrix" is rejected by the
proxy factory and by Terminal construction. -/
theorem C8_witness :
    Node._proxy "matrix" = Except.error (Err.unknownCategory "matrix")
    ∧ Terminal.new "matrix" (RawVal.int 0)
      = Except.error (Err.unknownCategory "matrix") :=
  ⟨(C8_unknown_category "matrix" (by decide)).1,
   (C8_unknown_category "matrix" (by decide)).2.1 (RawVal.int 0)⟩

/-- C9: the parallel-map strategy pair round-trips — at module load
`get_default_pmap` returns the builtin sequential map the cell was
initialized with, and in any reachable state, after `set_default_pmap f`
every subsequent `get_default_pmap` returns exactly f. -/
theorem C9_pmap_strategy_roundtrip (F : Type) (m : F) :
    get_default_pmap (initPmap m) = some m
    ∧ ∀ (f : F) (s : PmapState F), PmapReachable m s →
        get_default_pmap (set_default_pmap f s) = some f := by
  refine ⟨rfl, fun f s h => ?_⟩
  have hl := pmap_reachable_length m s h
  obtain ⟨l⟩ := s
  cases l with
  | nil => simp at hl
  | cons x t =>
    cases t with
    | nil => rfl
    | cons y t2 => simp at hl

/-- C9 witness: with the builtin sequential map (`pyMap`) in the cell at
module load, `get_default_pmap` returns it, and after replacing it the
getter returns the replacement. -/
theorem C9_witness :
    get_default_pmap (initPmap pyMap) = some pyMap
    ∧ get_default_pmap (set_default_pmap
        (fun f xs => (xs.map f).reverse) (initPmap pyMap))
      = some (fun (f : Nat → Nat) (xs : List Nat) => (xs.map f).reverse) :=
  ⟨(C9_pmap_strategy_roundtrip _ pyMap).1,
   (C9_pmap_strategy_roundtrip _ pyMap).2 (fun f xs => (xs.map f).reverse)
     (initPmap pyMap) PmapReachable.init⟩

/-- C10: the Terminal evaluation entry point `def eval(self)` declares no
backend parameter, so calling it with a `backend=` keyword raises
TypeError under Python's calling convention, for every Terminal and
every backend name (registered or not) — unlike `Node.eval(self,
backend=None)`, inherited by Value, which accepts the keyword. -/
theorem C10_terminal_eval_rejects_backend :
    (∀ (t : Terminal) (s : String),
      callWithKw Terminal.evalParams ["backend"] (fun _ => Terminal.eval t)
        = KwCall.typeError)
    ∧ (∀ (seed : Nat) (v : Value) (s : String),
      callWithKw Node.evalParams ["backend"]
          (fun _ => Node.eval seed v._ast (some s))
        = KwCall.ok (Node.eval seed v._ast (some s))) :=
  ⟨fun t s => rfl, fun seed v s => rfl⟩
